import Mathlib

/-!
Verification of the Marzban dashboard's client-side state logic:
the theme preference store (`theme-provider.tsx`), the theme settings
panel, and the sidebar's navigation tree and touch-gesture handling.

Machine model: browser `localStorage` is a key-value store whose
operations can throw (modelled by an `available` flag and `Except`-typed
raw operations); `console.warn` output is accumulated in a log list;
the OS colour-scheme signal is a boolean parameter.
-/

/-- Allowed theme modes, from `export type Theme` in theme-provider.tsx. -/
def themeValues : List String := ["light", "dark", "system"]

/-- Allowed radius tokens, from `export type Radius` in theme-provider.tsx. -/
def radiusValues : List String := ["0", "0.3rem", "0.5rem", "0.75rem"]

/-- Allowed colour palettes, from `export type ColorTheme` in theme-provider.tsx. -/
def colorThemeValues : List String :=
  ["default", "red", "rose", "orange", "green", "blue", "yellow", "violet"]

/-- Browser local storage: a partial map from keys to strings, plus a flag
saying whether the storage is usable at all (when it is not, every raw
operation throws, which is what the `catch` branches of `safeLocalStorage`
handle). -/
structure Storage where
  data : String → Option String
  available : Bool

/-- Raw `localStorage.getItem`: throws when storage is unavailable. -/
def rawGetItem (s : Storage) (k : String) : Except String (Option String) :=
  if s.available then Except.ok (s.data k) else Except.error "storage unavailable"

/-- Raw `localStorage.setItem`: throws when storage is unavailable. -/
def rawSetItem (s : Storage) (k v : String) : Except String Storage :=
  if s.available then
    Except.ok { s with data := fun q => if q = k then some v else s.data q }
  else Except.error "storage unavailable"

/-- Raw `localStorage.removeItem`: throws when storage is unavailable. -/
def rawRemoveItem (s : Storage) (k : String) : Except String Storage :=
  if s.available then
    Except.ok { s with data := fun q => if q = k then none else s.data q }
  else Except.error "storage unavailable"

/-- `safeLocalStorage.getItem`: try/catch around the raw call; on failure it
warns and returns null. Result: the value read (null on failure) and the
warnings emitted. -/
def safeGetItem (s : Storage) (k : String) : Option String × List String :=
  match rawGetItem s k with
  | Except.ok v => (v, [])
  | Except.error _ => (none, ["Failed to get localStorage item " ++ k])

/-- `safeLocalStorage.setItem`: try/catch around the raw call; on failure it
warns and returns false. Result: the storage afterwards, the success flag,
and the warnings emitted. -/
def safeSetItem (s : Storage) (k v : String) : Storage × Bool × List String :=
  match rawSetItem s k v with
  | Except.ok s2 => (s2, true, [])
  | Except.error _ => (s, false, ["Failed to set localStorage item " ++ k])

/-- `safeLocalStorage.removeItem`: try/catch around the raw call; on failure
it warns and returns false. -/
def safeRemoveItem (s : Storage) (k : String) : Storage × Bool × List String :=
  match rawRemoveItem s k with
  | Except.ok s2 => (s2, true, [])
  | Except.error _ => (s, false, ["Failed to remove localStorage item " ++ k])

/-- The `ThemeProvider` props that configure keys and defaults
(`defaultTheme`, `defaultRadius`, `storageKey`, `colorStorageKey`,
`radiusStorageKey`). -/
structure ThemeProviderConfig where
  defaultTheme : String
  defaultRadius : String
  storageKey : String
  colorStorageKey : String
  radiusStorageKey : String

/-- The default prop values of `ThemeProvider`. -/
def defaultConfig : ThemeProviderConfig :=
  { defaultTheme := "system"
    defaultRadius := "0.5rem"
    storageKey := "theme"
    colorStorageKey := "color-theme"
    radiusStorageKey := "radius" }

/-- The provider's mutable state: the two `useState` preference fields
(`theme` and `radius` — the provider holds no colour state), the storage it
talks to, and the accumulated `console.warn` log. -/
structure ProviderState where
  theme : String
  radius : String
  storage : Storage
  log : List String

/-- The `useState` initializer for `theme`: read the storage key and keep the
value only when it is truthy and one of the allowed modes, else fall back to
`defaultTheme`. -/
def initTheme (cfg : ThemeProviderConfig) (s : Storage) : String :=
  match (safeGetItem s cfg.storageKey).1 with
  | some saved => if saved ≠ "" ∧ saved ∈ themeValues then saved else cfg.defaultTheme
  | none => cfg.defaultTheme

/-- The `useState` initializer for `radius`, same pattern as `initTheme`. -/
def initRadius (cfg : ThemeProviderConfig) (s : Storage) : String :=
  match (safeGetItem s cfg.radiusStorageKey).1 with
  | some saved => if saved ≠ "" ∧ saved ∈ radiusValues then saved else cfg.defaultRadius
  | none => cfg.defaultRadius

/-- The provider state right after mount. -/
def initState (cfg : ThemeProviderConfig) (s : Storage) : ProviderState :=
  { theme := initTheme cfg s, radius := initRadius cfg s, storage := s, log := [] }

/-- `getSystemTheme()`: light when there is no window, else the media-query
result for `prefers-color-scheme: dark`. -/
def getSystemTheme (windowDefined prefersDark : Bool) : String :=
  if !windowDefined then "light" else if prefersDark then "dark" else "light"

/-- The resolved-theme computation shared by the `useState` initializer and
the apply-theme effect: `theme === 'system' ? getSystemTheme() : theme ===
'dark' ? 'dark' : 'light'`. -/
def resolveTheme (theme : String) (windowDefined prefersDark : Bool) : String :=
  if theme = "system" then getSystemTheme windowDefined prefersDark
  else if theme = "dark" then "dark" else "light"

/-- `setTheme`: persist under `storageKey` best-effort; the in-memory theme
is updated on both the success and the failure branch, the failure branch
additionally warns. -/
def setTheme (cfg : ThemeProviderConfig) (st : ProviderState) (newTheme : String) :
    ProviderState :=
  match safeSetItem st.storage cfg.storageKey newTheme with
  | (s2, true, w) => { st with storage := s2, theme := newTheme, log := st.log ++ w }
  | (s2, false, w) =>
      { st with
          storage := s2
          theme := newTheme
          log := st.log ++ w ++ ["Failed to save theme to localStorage, changes may not persist"] }

/-- `setRadius`: values outside the enumerated set are rejected with a
warning and no state change; valid values are persisted best-effort and the
in-memory radius is updated on both branches. -/
def setRadius (cfg : ThemeProviderConfig) (st : ProviderState) (newRadius : String) :
    ProviderState :=
  if newRadius ∈ radiusValues then
    match safeSetItem st.storage cfg.radiusStorageKey newRadius with
    | (s2, true, w) => { st with storage := s2, radius := newRadius, log := st.log ++ w }
    | (s2, false, w) =>
        { st with
            storage := s2
            radius := newRadius
            log := st.log ++ w ++ ["Failed to save radius to localStorage, changes may not persist"] }
  else { st with log := st.log ++ ["Invalid radius value: " ++ newRadius] }

/-- `resetToDefaults` under the general possibly-throwing semantics of a JS
function body: remove the three storage keys through the catching wrappers
and reset the in-memory fields to the constructor defaults. Its body
contains no uncaught throw, so the result is always `Except.ok`. -/
def resetToDefaultsE (cfg : ThemeProviderConfig) (st : ProviderState) :
    Except String ProviderState :=
  let (s1, _, w1) := safeRemoveItem st.storage cfg.storageKey
  let (s2, _, w2) := safeRemoveItem s1 cfg.colorStorageKey
  let (s3, _, w3) := safeRemoveItem s2 cfg.radiusStorageKey
  Except.ok
    { theme := cfg.defaultTheme
      radius := cfg.defaultRadius
      storage := s3
      log := st.log ++ w1 ++ w2 ++ w3 }

/-- `resetToDefaults` as its callers see it: always returns a state. -/
def resetToDefaults (cfg : ThemeProviderConfig) (st : ProviderState) : ProviderState :=
  match resetToDefaultsE cfg st with
  | Except.ok st2 => st2
  | Except.error _ => st

/-- The settings panel's `handleResetToDefaults`: try/catch around the
store's reset, producing a success toast on the ok path and an error toast
on the catch path. -/
def handleResetToDefaults (cfg : ThemeProviderConfig) (st : ProviderState) :
    ProviderState × String :=
  match resetToDefaultsE cfg st with
  | Except.ok st2 => (st2, "success")
  | Except.error _ => (st, "error")

/-- The field names of the context value the provider publishes
(`ThemeProviderState` / the `value` record, theme-provider.tsx lines 16-24
and 174-182). -/
def themeProviderStateFields : List String :=
  ["theme", "radius", "resolvedTheme", "setTheme", "setRadius",
   "resetToDefaults", "isSystemTheme"]

/-- The field names the Theme Settings panel destructures out of
`useTheme()` (part_001 line 32). -/
def themeSettingsUsedFields : List String :=
  ["theme", "colorTheme", "radius", "resolvedTheme", "setTheme",
   "setColorTheme", "setRadius", "resetToDefaults", "isSystemTheme"]

/-- The provider operations reachable through the published setters, with
their TS argument types erased to strings. -/
inductive ProviderOp where
  | setThemeOp (t : String)
  | setRadiusOp (r : String)
  | resetOp

/-- Well-typedness of an operation argument: `setTheme` takes a `Theme`
(enforced by the TS type system), `setRadius` checks its own argument at
runtime, reset takes none. -/
def WfOp : ProviderOp → Prop
  | ProviderOp.setThemeOp t => t ∈ themeValues
  | ProviderOp.setRadiusOp _ => True
  | ProviderOp.resetOp => True

/-- All operations in a list are well-typed. -/
def AllWf : List ProviderOp → Prop
  | [] => True
  | op :: rest => WfOp op ∧ AllWf rest

/-- Apply one operation to the provider state. -/
def applyOp (cfg : ThemeProviderConfig) (st : ProviderState) : ProviderOp → ProviderState
  | ProviderOp.setThemeOp t => setTheme cfg st t
  | ProviderOp.setRadiusOp r => setRadius cfg st r
  | ProviderOp.resetOp => resetToDefaults cfg st

/-- Run a sequence of operations. -/
def runOps (cfg : ThemeProviderConfig) (st : ProviderState) (ops : List ProviderOp) :
    ProviderState :=
  ops.foldl (applyOp cfg) st

/-- The enumerated-values invariant on the preference fields. -/
def PrefInv (st : ProviderState) : Prop :=
  st.theme ∈ themeValues ∧ st.radius ∈ radiusValues

/-! Sidebar navigation (AppSidebar, part_000). -/

/-- A navigation entry: title, url, icon, optional nested items. -/
inductive NavItem where
  | mk (title : String) (url : String) (icon : String) (items : List NavItem)

/-- Title accessor. -/
def NavItem.title : NavItem → String
  | NavItem.mk t _ _ _ => t

/-- `data.navMain` from AppSidebar: dashboard and users always, the
administrative sections only when `admin?.is_sudo` is true. -/
def navMain (isSudo : Bool) : List NavItem :=
  [ NavItem.mk "dashboard" "/" "LayoutDashboardIcon" [],
    NavItem.mk "users" "/users" "UsersIcon" [] ] ++
  (if isSudo then
    [ NavItem.mk "statistics" "/statistics" "PieChart" [],
      NavItem.mk "hosts" "/hosts" "ListTodo" [],
      NavItem.mk "groups" "/groups" "Users2" [],
      NavItem.mk "admins.title" "/admins" "UserCog" [],
      NavItem.mk "nodes.title" "/nodes" "Share2Icon"
        [ NavItem.mk "nodes.title" "/nodes" "Share2Icon" [],
          NavItem.mk "settings.cores.title" "/nodes/cores" "Cpu" [],
          NavItem.mk "nodes.logs.title" "/nodes/logs" "FileText" [] ],
      NavItem.mk "templates.title" "/templates" "LayoutTemplate" [],
      NavItem.mk "bulk.title" "/bulk" "Layers"
        [ NavItem.mk "bulk.groups" "/bulk" "Users2" [],
          NavItem.mk "bulk.expireDate" "/bulk/expire" "Calendar" [],
          NavItem.mk "bulk.dataLimit" "/bulk/data" "ArrowUpDown" [],
          NavItem.mk "bulk.proxySettings" "/bulk/proxy" "Lock" [] ],
      NavItem.mk "settings.title" "/settings" "Settings2"
        [ NavItem.mk "settings.general.title" "/settings/general" "Settings" [],
          NavItem.mk "settings.notifications.title" "/settings/notifications" "Bell" [],
          NavItem.mk "settings.subscriptions.title" "/settings/subscriptions" "ListTodo" [],
          NavItem.mk "settings.telegram.title" "/settings/telegram" "Send" [],
          NavItem.mk "settings.discord.title" "/settings/discord" "MessageCircle" [],
          NavItem.mk "settings.webhook.title" "/settings/webhook" "Webhook" [],
          NavItem.mk "settings.cleanup.title" "/settings/cleanup" "Database" [] ] ]
  else [])

/-- The titles of the administrative sections, as they appear in the
source's conditional block. -/
def adminSectionTitles : List String :=
  ["statistics", "hosts", "groups", "admins.title", "nodes.title",
   "templates.title", "bulk.title", "settings.title"]

/-! Touch-gesture handling (AppSidebar, part_000). -/

/-- `minSwipeDistance = 50`. -/
def minSwipeDistance : Int := 50

/-- `edgeThreshold = 50`. -/
def edgeThreshold : Int := 50

/-- The gesture refs plus the mobile-menu flag: `touchStartX` and
`touchEndX` are nullable coordinates, `openMobile` the sidebar state. -/
structure SidebarTouch where
  touchStartX : Option Int
  touchEndX : Option Int
  openMobile : Bool

/-- `handleTouchStart`: clear the end ref, record the start coordinate. -/
def handleTouchStart (st : SidebarTouch) (x : Int) : SidebarTouch :=
  { st with touchEndX := none, touchStartX := some x }

/-- `handleTouchMove`: record the latest coordinate. -/
def handleTouchMove (st : SidebarTouch) (x : Int) : SidebarTouch :=
  { st with touchEndX := some x }

/-- `handleTouchEnd`: the guard `!touchStartX.current || !touchEndX.current`
is truthy when a ref is null or when the recorded coordinate is exactly 0
(both are falsy in JS), and then returns without touching anything. A swipe
starting within `edgeThreshold` of the right window edge toggles the mobile
menu when the travelled distance exceeds `minSwipeDistance`; afterwards both
refs are reset. -/
def handleTouchEnd (innerWidth : Int) (st : SidebarTouch) : SidebarTouch :=
  match st.touchStartX, st.touchEndX with
  | some s, some e =>
    if s = 0 ∨ e = 0 then st
    else
      let distance := s - e
      let newOpen :=
        if s > innerWidth - edgeThreshold then
          if distance > minSwipeDistance ∧ st.openMobile = false then true
          else if distance < -minSwipeDistance ∧ st.openMobile = true then false
          else st.openMobile
        else st.openMobile
      { touchStartX := none, touchEndX := none, openMobile := newOpen }
  | _, _ => st

/-- One full touch sequence: touchstart at `s`, a touchmove ending at `e`,
then touchend. -/
def runGesture (innerWidth : Int) (st : SidebarTouch) (s e : Int) : SidebarTouch :=
  handleTouchEnd innerWidth (handleTouchMove (handleTouchStart st s) e)

/-! Concrete fixtures used by witnesses and counterexamples. -/

/-- An empty, working storage. -/
def emptyStorage : Storage := { data := fun _ => none, available := true }

/-- A working storage holding a persisted theme. -/
def okStorage : Storage :=
  { data := fun k => if k = "theme" then some "dark" else none, available := true }

/-- An unavailable storage that still holds a persisted theme (for example
storage disabled after the value was written). -/
def badStorage : Storage :=
  { data := fun k => if k = "theme" then some "dark" else none, available := false }

/-- A provider state over `okStorage`. -/
def stOk : ProviderState :=
  { theme := "dark", radius := "0.75rem", storage := okStorage, log := [] }

/-- A provider state over `badStorage`. -/
def stBad : ProviderState :=
  { theme := "dark", radius := "0", storage := badStorage, log := [] }

/-- A sample well-typed operation sequence. -/
def sampleOps : List ProviderOp :=
  [ProviderOp.setThemeOp "dark", ProviderOp.setRadiusOp "1rem", ProviderOp.resetOp]

/-! Claim theorems. -/

/-- Claim C1 (code divergence): the Theme Settings panel destructures
`colorTheme` and `setColorTheme` out of `useTheme()`, but the provider's
published `ThemeProviderState` contains neither field, so the panel's
colour handler calls an undefined setter and no colour preference is ever
held or persisted by the store. -/
theorem colorTheme_setter_missing_from_provider :
    "setColorTheme" ∈ themeSettingsUsedFields ∧
    "colorTheme" ∈ themeSettingsUsedFields ∧
    "setColorTheme" ∉ themeProviderStateFields ∧
    "colorTheme" ∉ themeProviderStateFields := by
  decide

/-- Claim C2: for every theme mode the resolved theme is `dark` or
`light`; it is `dark` when the mode is `dark`, `light` when the mode is
`light`, and for mode `system` (with a window present) it equals the OS
colour-scheme preference. -/
theorem resolvedTheme_consistent_with_mode (t : String) (wd pd : Bool) :
    resolveTheme t wd pd ∈ (["light", "dark"] : List String) ∧
    resolveTheme "dark" wd pd = "dark" ∧
    resolveTheme "light" wd pd = "light" ∧
    resolveTheme "system" true pd = (if pd then "dark" else "light") := by
  refine ⟨?_, rfl, rfl, rfl⟩
  by_cases h1 : t = "system"
  · simp [resolveTheme, h1, getSystemTheme]
    cases wd <;> cases pd <;> simp
  · by_cases h2 : t = "dark" <;> simp [resolveTheme, h1, h2]

/-- Claim C5: `setTheme` always updates the in-memory theme to the new
mode; when storage works the mode is persisted under the configured key,
and when storage fails the failure is only logged (two warnings) while the
in-memory state still updates — the call is never fatal. -/
theorem setTheme_always_updates_memory (cfg : ThemeProviderConfig)
    (st : ProviderState) (m : String) :
    (setTheme cfg st m).theme = m ∧
    (setTheme cfg st m).radius = st.radius ∧
    (setTheme cfg st m).storage.data cfg.storageKey =
      (if st.storage.available then some m else st.storage.data cfg.storageKey) ∧
    (setTheme cfg st m).log =
      (if st.storage.available then st.log
       else st.log ++ ["Failed to set localStorage item " ++ cfg.storageKey,
                       "Failed to save theme to localStorage, changes may not persist"]) := by
  cases hA : st.storage.available <;>
    simp [setTheme, safeSetItem, rawSetItem, hA]

/-- Claim C7: without the sudo flag the menu tree is exactly dashboard and
users — every administrative section is excluded — while with the flag all
administrative sections are present. -/
theorem navMain_admin_sections_require_sudo :
    (navMain false).map NavItem.title = ["dashboard", "users"] ∧
    (navMain true).map NavItem.title = ["dashboard", "users"] ++ adminSectionTitles ∧
    adminSectionTitles.all (fun a => !(((navMain false).map NavItem.title).contains a)) = true ∧
    adminSectionTitles.all (fun a => ((navMain true).map NavItem.title).contains a) = true := by
  exact ⟨rfl, rfl, by decide, by decide⟩

/-- Claim C9: the store's reset is built from catching storage wrappers and
contains no uncaught throw, so it always returns `Except.ok`; hence the
settings panel's reset handler always takes the success-toast path and its
error branch is unreachable. -/
theorem reset_failure_branch_unreachable (cfg : ThemeProviderConfig)
    (st : ProviderState) :
    resetToDefaultsE cfg st = Except.ok (resetToDefaults cfg st) ∧
    handleResetToDefaults cfg st = (resetToDefaults cfg st, "success") :=
  ⟨rfl, rfl⟩

/-- Claim C10: a touch sequence whose start coordinate is exactly 0 is
discarded by the falsy guard in `handleTouchEnd`: whatever the travel, the
mobile-menu flag is unchanged, and the early return leaves the refs alone. -/
theorem touchstart_at_zero_discarded (innerWidth e : Int) (st : SidebarTouch)
    (b : Bool) :
    (runGesture innerWidth st 0 e).openMobile = st.openMobile ∧
    handleTouchEnd innerWidth
        { touchStartX := some 0, touchEndX := some e, openMobile := b } =
      { touchStartX := some 0, touchEndX := some e, openMobile := b } := by
  constructor
  · simp [runGesture, handleTouchStart, handleTouchMove, handleTouchEnd]
  · simp [handleTouchEnd]

/-- Claim C4: a radius value outside the enumerated set changes nothing but
the warning log — no in-memory update, no storage write. -/
theorem setRadius_rejects_invalid_value (cfg : ThemeProviderConfig)
    (st : ProviderState) (r : String) (h : r ∉ radiusValues) :
    setRadius cfg st r = { st with log := st.log ++ ["Invalid radius value: " ++ r] } := by
  simp [setRadius, h]

/-- Concrete instance of the invalid-radius rejection. -/
theorem setRadius_rejects_invalid_value_witness :
    "10px" ∉ radiusValues ∧
    setRadius defaultConfig stOk "10px" =
      { stOk with log := stOk.log ++ ["Invalid radius value: " ++ "10px"] } :=
  ⟨by decide, setRadius_rejects_invalid_value defaultConfig stOk "10px" (by decide)⟩

/-- Claim C3 fails as stated: with the storage unavailable (every removal
throws and is swallowed), a previously persisted `theme` key survives
`resetToDefaults`, so the three keys are not absent for every prior state. -/
theorem resetToDefaults_unavailable_counterexample :
    (resetToDefaults defaultConfig stBad).storage.data defaultConfig.storageKey
      = some "dark" ∧
    ¬ (resetToDefaults defaultConfig stBad).storage.data defaultConfig.storageKey
      = none :=
  ⟨by decide, by decide⟩

/-- Claim C3 (amended): `resetToDefaults` always restores the in-memory
theme and radius to the constructor defaults, whatever the storage state
(the provider keeps no in-memory colour field); when storage is available
it moreover removes all three storage keys. -/
theorem resetToDefaults_clears_keys_and_restores_defaults
    (cfg : ThemeProviderConfig) (st : ProviderState) :
    (resetToDefaults cfg st).theme = cfg.defaultTheme ∧
    (resetToDefaults cfg st).radius = cfg.defaultRadius ∧
    (st.storage.available = true →
      (resetToDefaults cfg st).storage.data cfg.storageKey = none ∧
      (resetToDefaults cfg st).storage.data cfg.colorStorageKey = none ∧
      (resetToDefaults cfg st).storage.data cfg.radiusStorageKey = none) := by
  refine ⟨rfl, rfl, fun h => ?_⟩
  have hs : (resetToDefaults cfg st).storage =
      { data := fun q =>
          if q = cfg.radiusStorageKey then none
          else if q = cfg.colorStorageKey then none
          else if q = cfg.storageKey then none
          else st.storage.data q
        available := true } := by
    simp [resetToDefaults, resetToDefaultsE, safeRemoveItem, rawRemoveItem, h]
  refine ⟨?_, ?_, ?_⟩ <;> rw [hs]
  · by_cases h1 : cfg.storageKey = cfg.radiusStorageKey
    · simp [h1]
    · by_cases h2 : cfg.storageKey = cfg.colorStorageKey <;> simp [h1, h2]
  · by_cases h1 : cfg.colorStorageKey = cfg.radiusStorageKey <;> simp [h1]
  · simp

/-- Concrete instance of the reset behaviour over a working storage. -/
theorem resetToDefaults_clears_keys_witness :
    (resetToDefaults defaultConfig stOk).theme = defaultConfig.defaultTheme ∧
    (resetToDefaults defaultConfig stOk).radius = defaultConfig.defaultRadius ∧
    stOk.storage.available = true ∧
    ((resetToDefaults defaultConfig stOk).storage.data defaultConfig.storageKey = none ∧
     (resetToDefaults defaultConfig stOk).storage.data defaultConfig.colorStorageKey = none ∧
     (resetToDefaults defaultConfig stOk).storage.data defaultConfig.radiusStorageKey = none) :=
  ⟨(resetToDefaults_clears_keys_and_restores_defaults defaultConfig stOk).1,
   (resetToDefaults_clears_keys_and_restores_defaults defaultConfig stOk).2.1,
   rfl,
   (resetToDefaults_clears_keys_and_restores_defaults defaultConfig stOk).2.2 rfl⟩

/-- The theme initializer only ever produces an allowed mode (given an
allowed default). -/
theorem initTheme_mem (cfg : ThemeProviderConfig) (s : Storage)
    (hT : cfg.defaultTheme ∈ themeValues) : initTheme cfg s ∈ themeValues := by
  unfold initTheme
  cases hg : (safeGetItem s cfg.storageKey).1 with
  | none => exact hT
  | some v =>
    show (if v ≠ "" ∧ v ∈ themeValues then v else cfg.defaultTheme) ∈ themeValues
    by_cases hc : v ≠ "" ∧ v ∈ themeValues
    · rw [if_pos hc]; exact hc.2
    · rw [if_neg hc]; exact hT

/-- The radius initializer only ever produces an allowed token (given an
allowed default). -/
theorem initRadius_mem (cfg : ThemeProviderConfig) (s : Storage)
    (hR : cfg.defaultRadius ∈ radiusValues) : initRadius cfg s ∈ radiusValues := by
  unfold initRadius
  cases hg : (safeGetItem s cfg.radiusStorageKey).1 with
  | none => exact hR
  | some v =>
    show (if v ≠ "" ∧ v ∈ radiusValues then v else cfg.defaultRadius) ∈ radiusValues
    by_cases hc : v ≠ "" ∧ v ∈ radiusValues
    · rw [if_pos hc]; exact hc.2
    · rw [if_neg hc]; exact hR

/-- Each well-typed operation preserves the enumerated-values invariant. -/
theorem applyOp_preserves (cfg : ThemeProviderConfig)
    (hT : cfg.defaultTheme ∈ themeValues) (hR : cfg.defaultRadius ∈ radiusValues)
    (st : ProviderState) (hst : PrefInv st) (op : ProviderOp) (hop : WfOp op) :
    PrefInv (applyOp cfg st op) := by
  cases op with
  | setThemeOp t =>
    have ht : t ∈ themeValues := hop
    cases hA : st.storage.available <;>
      · constructor
        · simpa [applyOp, setTheme, safeSetItem, rawSetItem, hA, PrefInv] using ht
        · simpa [applyOp, setTheme, safeSetItem, rawSetItem, hA, PrefInv] using hst.2
  | setRadiusOp r =>
    by_cases hr : r ∈ radiusValues
    · cases hA : st.storage.available <;>
        · constructor
          · simpa [applyOp, setRadius, hr, safeSetItem, rawSetItem, hA] using hst.1
          · simp [applyOp, setRadius, hr, safeSetItem, rawSetItem, hA]
    · constructor
      · simpa [applyOp, setRadius, hr] using hst.1
      · simpa [applyOp, setRadius, hr] using hst.2
  | resetOp => exact ⟨hT, hR⟩

/-- Running any well-typed operation sequence preserves the invariant. -/
theorem runOps_preserves (cfg : ThemeProviderConfig)
    (hT : cfg.defaultTheme ∈ themeValues) (hR : cfg.defaultRadius ∈ radiusValues)
    (ops : List ProviderOp) :
    ∀ st : ProviderState, PrefInv st → AllWf ops → PrefInv (runOps cfg st ops) := by
  induction ops with
  | nil => intro st hst _; simpa [runOps] using hst
  | cons op rest ih =>
    intro st hst hwf
    have h1 := applyOp_preserves cfg hT hR st hst op hwf.1
    have h2 := ih (applyOp cfg st op) h1 hwf.2
    simpa [runOps] using h2

/-- Claim C6 (amended, restricted to the preference fields the provider
holds): starting from any storage contents, the theme and radius fields are
in their enumerated sets at initialization — an out-of-set stored value is
discarded in favour of the constructor default — and any sequence of
well-typed setter/reset operations keeps them in their sets. -/
theorem preference_fields_always_enumerated (cfg : ThemeProviderConfig)
    (s : Storage) (ops : List ProviderOp)
    (hT : cfg.defaultTheme ∈ themeValues) (hR : cfg.defaultRadius ∈ radiusValues)
    (hops : AllWf ops) :
    PrefInv (initState cfg s) ∧
    PrefInv (runOps cfg (initState cfg s) ops) ∧
    (∀ v : String, (safeGetItem s cfg.storageKey).1 = some v →
      v ∉ themeValues → (initState cfg s).theme = cfg.defaultTheme) ∧
    (∀ v : String, (safeGetItem s cfg.radiusStorageKey).1 = some v →
      v ∉ radiusValues → (initState cfg s).radius = cfg.defaultRadius) := by
  have h0 : PrefInv (initState cfg s) :=
    ⟨initTheme_mem cfg s hT, initRadius_mem cfg s hR⟩
  refine ⟨h0, runOps_preserves cfg hT hR ops (initState cfg s) h0 hops, ?_, ?_⟩
  · intro v hv hnv
    show initTheme cfg s = cfg.defaultTheme
    unfold initTheme
    rw [hv]
    show (if v ≠ "" ∧ v ∈ themeValues then v else cfg.defaultTheme) = cfg.defaultTheme
    rw [if_neg]
    exact fun hc => hnv hc.2
  · intro v hv hnv
    show initRadius cfg s = cfg.defaultRadius
    unfold initRadius
    rw [hv]
    show (if v ≠ "" ∧ v ∈ radiusValues then v else cfg.defaultRadius) = cfg.defaultRadius
    rw [if_neg]
    exact fun hc => hnv hc.2

/-- Concrete instance of the invariant run: defaults are allowed, the sample
operation sequence is well typed, and the invariant holds after it. -/
theorem preference_fields_enumerated_witness :
    defaultConfig.defaultTheme ∈ themeValues ∧
    defaultConfig.defaultRadius ∈ radiusValues ∧
    AllWf sampleOps ∧
    PrefInv (initState defaultConfig emptyStorage) ∧
    PrefInv (runOps defaultConfig (initState defaultConfig emptyStorage) sampleOps) :=
  ⟨by decide, by decide, ⟨by simp [WfOp, themeValues], trivial, trivial, trivial⟩,
   (preference_fields_always_enumerated defaultConfig emptyStorage sampleOps
      (by decide) (by decide) ⟨by simp [WfOp, themeValues], trivial, trivial, trivial⟩).1,
   (preference_fields_always_enumerated defaultConfig emptyStorage sampleOps
      (by decide) (by decide) ⟨by simp [WfOp, themeValues], trivial, trivial, trivial⟩).2.1⟩

/-- Closed form of `handleTouchEnd` once both refs hold nonzero coordinates. -/
theorem handleTouchEnd_eq (W s e : Int) (b : Bool) (hs : s ≠ 0) (he : e ≠ 0) :
    handleTouchEnd W { touchStartX := some s, touchEndX := some e, openMobile := b } =
    { touchStartX := none, touchEndX := none, openMobile :=
        if s > W - edgeThreshold then
          if s - e > minSwipeDistance ∧ b = false then true
          else if s - e < -minSwipeDistance ∧ b = true then false
          else b
        else b } := by
  simp [handleTouchEnd, hs, he]

/-- Claim C8 fails as stated: this left swipe starts within the edge
threshold and travels past the minimum distance, yet the menu stays closed,
because the end coordinate 0 is falsy and the gesture is discarded. -/
theorem edge_left_swipe_to_zero_not_recognized :
    (480 : Int) > 500 - edgeThreshold ∧
    (480 : Int) - 0 > minSwipeDistance ∧
    (runGesture 500 { touchStartX := none, touchEndX := none, openMobile := false }
        480 0).openMobile = false :=
  ⟨by decide, by decide, by decide⟩

/-- Claim C8 (amended): the menu state changes only for gestures starting
within the edge threshold of the right edge whose travel exceeds the
minimum distance; provided both recorded coordinates are nonzero (zero is
falsy and discarded), an edge left swipe opens the closed menu and an edge
right swipe closes the open menu; a swipe not from the edge never changes
the state. -/
theorem swipe_recognition_conditions (W : Int) (st : SidebarTouch) (s e : Int) :
    ((runGesture W st s e).openMobile ≠ st.openMobile →
      s > W - edgeThreshold ∧
        (s - e > minSwipeDistance ∨ e - s > minSwipeDistance)) ∧
    (s > W - edgeThreshold → s - e > minSwipeDistance → s ≠ 0 → e ≠ 0 →
      st.openMobile = false → (runGesture W st s e).openMobile = true) ∧
    (s > W - edgeThreshold → e - s > minSwipeDistance → s ≠ 0 → e ≠ 0 →
      st.openMobile = true → (runGesture W st s e).openMobile = false) ∧
    (¬ s > W - edgeThreshold → (runGesture W st s e).openMobile = st.openMobile) := by
  have hrun : runGesture W st s e =
      handleTouchEnd W
        { touchStartX := some s, touchEndX := some e, openMobile := st.openMobile } := rfl
  refine ⟨?_, ?_, ?_, ?_⟩
  · intro hne
    by_cases hs : s = 0
    · exact absurd (by rw [hrun]; simp [handleTouchEnd, hs]) hne
    by_cases he : e = 0
    · exact absurd (by rw [hrun]; simp [handleTouchEnd, hs, he]) hne
    rw [hrun, handleTouchEnd_eq W s e st.openMobile hs he] at hne
    simp only [] at hne
    by_cases hEdge : s > W - edgeThreshold
    · refine ⟨hEdge, ?_⟩
      by_cases h1 : s - e > minSwipeDistance
      · exact Or.inl h1
      · by_cases h2 : s - e < -minSwipeDistance
        · refine Or.inr ?_
          simp only [minSwipeDistance] at *
          omega
        · exact absurd (by simp [hEdge, h1, h2]) hne
    · exact absurd (by simp [hEdge]) hne
  · intro hEdge hdist hs he hb
    rw [hrun, handleTouchEnd_eq W s e st.openMobile hs he]
    simp [hEdge, hdist, hb]
  · intro hEdge hdist hs he hb
    have h1 : ¬ s - e > minSwipeDistance := by
      simp only [minSwipeDistance] at *; omega
    have h2 : s - e < -minSwipeDistance := by
      simp only [minSwipeDistance] at *; omega
    rw [hrun, handleTouchEnd_eq W s e st.openMobile hs he]
    simp [hEdge, h1, h2, hb]
  · intro hEdge
    by_cases hs : s = 0
    · rw [hrun]; simp [handleTouchEnd, hs]
    by_cases he : e = 0
    · rw [hrun]; simp [handleTouchEnd, hs, he]
    rw [hrun, handleTouchEnd_eq W s e st.openMobile hs he]
    simp [hEdge]

/-- Concrete instance of the edge-swipe recognition: an edge left swipe from
480 to 100 on a 500-wide screen opens the closed menu. -/
theorem swipe_recognition_witness :
    (480 : Int) > 500 - edgeThreshold ∧
    (480 : Int) - 100 > minSwipeDistance ∧
    (runGesture 500 { touchStartX := none, touchEndX := none, openMobile := false }
        480 100).openMobile = true :=
  ⟨by decide, by decide,
   (swipe_recognition_conditions 500
      { touchStartX := none, touchEndX := none, openMobile := false } 480 100).2.1
     (by decide) (by decide) (by decide) (by decide) rfl⟩

/-- Claim C6 fails as stated for the third Preference Set field: the panel
reads `colorTheme` out of `useTheme()`, but the provider's published state
has no such field, so at no point does `colorTheme` hold one of its eight
enumerated palette values — the panel observes undefined instead. -/
theorem preference_colorTheme_missing_counterexample :
    "colorTheme" ∈ themeSettingsUsedFields ∧
    "colorTheme" ∉ themeProviderStateFields ∧
    colorThemeValues ≠ [] := by
  decide
